import Mathlib

/-!
Shallow embedding of the backendICB Express server: the culto routes of
`src/server.js` (create / update / delete with Cloudinary image coordination,
`GET /cultos/ultimo`), the `POST /login` flow of the JWT variant, and the
agenda CRUD routes, together with proofs of the specified properties.

Request handlers are modelled as pure functions from the table state and the
request data to the new table state plus the list of observable events
(DB statement results, Cloudinary destroy calls, HTTP response) in program
order.  A database failure (a thrown query) is modelled by an explicit
`dbFails` flag selecting the handler's catch branch.
-/

namespace ICB

/-- An uploaded image as produced by the Cloudinary storage engine:
`req.file.path` (the URL) and `req.file.filename` (the public id, i.e. the
deletion handle). -/
structure Img where
  path : String
  pid : String
deriving DecidableEq, Repr

/-- A row of the `cultos` table. -/
structure Row where
  id : Nat
  titulo : String
  imagem_path : String
  public_id : Option String
  criado_em : Nat
deriving DecidableEq, Repr

abbrev Table := List Row

/-- Observable events of one request handler, in program order. -/
inductive Ev where
  | update (affected : Nat)
  | destroy (h : String)
  | respond (code : Nat) (msg : String)
deriving DecidableEq, Repr

def evDestroy : Ev → Option String
  | .destroy h => some h
  | _ => none

/-- The Cloudinary destroy calls issued by a handler run. -/
def destroysOf (evs : List Ev) : List String := evs.filterMap evDestroy

/-- `SELECT public_id FROM cultos WHERE id = ?`, then `cultoRows[0].public_id`
when a row was found. -/
def oldPid (s : Table) (id : Nat) : Option String :=
  (s.find? (fun r => r.id == id)).bind (fun r => r.public_id)

/-- `POST /cultos` (`server.js` lines 95-118).  `titulo = ""` models a missing
or empty title (both are falsy in JS); `img = none` models a request without a
successfully uploaded image. -/
def postCulto (s : Table) (titulo : String) (img : Option Img) (newId now : Nat)
    (dbFails : Bool) : Table × List Ev :=
  match img with
  | none =>
    (s, [.respond 400 "Faltando título ou imagem. Certifique-se de que a imagem foi enviada."])
  | some im =>
    if titulo = "" then
      (s, [.respond 400 "Faltando título ou imagem. Certifique-se de que a imagem foi enviada."])
    else if dbFails then
      (s, [.destroy im.pid, .respond 500 "Erro ao salvar culto."])
    else
      (s ++ [⟨newId, titulo, im.path, some im.pid, now⟩],
       [.update 1, .respond 200 "Culto publicado com sucesso!"])

/-- The row change performed by the three UPDATE statements of
`PUT /cultos/:id` (title+image / image only / title only). -/
def applyCulto (r : Row) (titulo : String) (img : Option Img) : Row :=
  match img with
  | some im =>
    if titulo = "" then { r with imagem_path := im.path, public_id := some im.pid }
    else { r with titulo := titulo, imagem_path := im.path, public_id := some im.pid }
  | none => { r with titulo := titulo }

/-- `PUT /cultos/:id` (`server.js` lines 121-185). -/
def putCulto (s : Table) (id : Nat) (titulo : String) (img : Option Img)
    (dbFails : Bool) : Table × List Ev :=
  if titulo = "" ∧ img = none then
    (s, [.respond 400 "Pelo menos um campo (titulo ou imagem) deve ser fornecido para atualização."])
  else if dbFails then
    (s, (match img with | some im => [Ev.destroy im.pid] | none => []) ++
        [.respond 500 "Erro ao atualizar culto."])
  else if (s.filter (fun r => r.id == id)).length = 0 then
    (s, [Ev.update 0] ++
        (match img with | some im => [Ev.destroy im.pid] | none => []) ++
        [.respond 404 "Culto não encontrado."])
  else
    (s.map (fun r => if r.id = id then applyCulto r titulo img else r),
     [Ev.update (s.filter (fun r => r.id == id)).length] ++
     (match img with
      | some _ => (match oldPid s id with | some o => [Ev.destroy o] | none => [])
      | none => []) ++
     [.respond 200 "Culto atualizado com sucesso!"])

/-- `DELETE /cultos/:id` (`server.js` lines 188-213). -/
def deleteCulto (s : Table) (id : Nat) (dbFails : Bool) : Table × List Ev :=
  if dbFails then (s, [.respond 500 "Erro ao deletar culto."])
  else if (s.filter (fun r => r.id == id)).length = 0 then
    (s, [.update 0, .respond 404 "Culto não encontrado."])
  else
    (s.filter (fun r => r.id != id),
     [Ev.update (s.filter (fun r => r.id == id)).length] ++
     (match oldPid s id with | some o => [Ev.destroy o] | none => []) ++
     [.respond 200 "Culto deletado com sucesso!"])

/-- One culto operation of a sequential history. -/
inductive Op where
  | create (titulo : String) (img : Option Img) (newId now : Nat) (dbFails : Bool)
  | update (id : Nat) (titulo : String) (img : Option Img) (dbFails : Bool)
  | del (id : Nat) (dbFails : Bool)
deriving DecidableEq, Repr

def stepOp (s : Table) : Op → Table × List Ev
  | .create t img nid now b => postCulto s t img nid now b
  | .update id t img b => putCulto s id t img b
  | .del id b => deleteCulto s id b

/-- The media host never hands out a deletion handle that a committed row
already references. -/
def imgFresh (s : Table) : Option Img → Bool
  | none => true
  | some im => s.all (fun r => r.public_id != some im.pid)

/-- Freshness of the data an operation brings in: a fresh upload handle, and
(for inserts) a DB-assigned id not already present. -/
def opFresh (s : Table) : Op → Bool
  | .create _ img nid _ _ => s.all (fun r => r.id != nid) && imgFresh s img
  | .update _ _ img _ => imgFresh s img
  | .del _ _ => true

def wfTrace : Table → List Op → Bool
  | _, [] => true
  | s, o :: rest => opFresh s o && wfTrace (stepOp s o).1 rest

/-- All destroy calls of a history, each paired with the table state at the
moment of the call (every destroy call of a handler happens after the DB
statement of the same request). -/
def traceEvents : Table → List Op → List (String × Table)
  | _, [] => []
  | s, o :: rest =>
    (destroysOf (stepOp s o).2).map (fun d => (d, (stepOp s o).1)) ++
      traceEvents (stepOp s o).1 rest

/-- Distinctness of committed rows: distinct primary keys, and no two rows
share a deletion handle. -/
def RowOk (r1 r2 : Row) : Prop :=
  r1.id ≠ r2.id ∧ (r1.public_id.isSome = true → r1.public_id ≠ r2.public_id)

def good (s : Table) : Prop := s.Pairwise RowOk

/-! ### Login (`src/unnamed/part_000`, `POST /login`) -/

/-- A row of the `users` table. -/
structure User where
  id : Nat
  username : String
  password : String
deriving DecidableEq, Repr

/-- `POST /login` (part_000 lines 114-143).  `compare` stands for
`bcrypt.compare`; the result is the HTTP status together with the `erro`
message (failure) or the `mensagem` field (success). -/
def login (compare : String → String → Bool) (users : List User)
    (username password : String) : Nat × String :=
  if username = "" ∨ password = "" then
    (400, "Usuário e senha são obrigatórios.")
  else
    match users.find? (fun u => u.username == username) with
    | none => (401, "Usuário não encontrado ou credenciais inválidas.")
    | some u =>
      if compare password u.password then (200, "Login bem-sucedido!")
      else (401, "Senha incorreta ou credenciais inválidas.")

/-! ### Agenda routes (`server.js` lines 229-333) -/

/-- A row of the `agenda` table (`lcl` is the `local` column; `local` is a
Lean keyword). -/
structure AgRow where
  id : Nat
  titulo : String
  data_evento : String
  horario : String
  lcl : String
deriving DecidableEq, Repr

/-- The time regex `/^(?:2[0-3]|[01]?[0-9]):[0-5][0-9]$/` of the agenda
routes, expressed on code points: either `2[0-3]:[0-5][0-9]`,
`[01][0-9]:[0-5][0-9]`, or (the `[01]?` branch with the optional character
absent) `[0-9]:[0-5][0-9]`. -/
def horarioValidL : List Char → Bool
  | [a, b, ':', c, d] =>
    ((decide (a.toNat = 50) && decide (48 ≤ b.toNat) && decide (b.toNat ≤ 51)) ||
     ((decide (a.toNat = 48) || decide (a.toNat = 49)) &&
      decide (48 ≤ b.toNat) && decide (b.toNat ≤ 57))) &&
    decide (48 ≤ c.toNat) && decide (c.toNat ≤ 53) &&
    decide (48 ≤ d.toNat) && decide (d.toNat ≤ 57)
  | [a, ':', c, d] =>
    decide (48 ≤ a.toNat) && decide (a.toNat ≤ 57) &&
    decide (48 ≤ c.toNat) && decide (c.toNat ≤ 53) &&
    decide (48 ≤ d.toNat) && decide (d.toNat ≤ 57)
  | _ => false

def horarioValid (s : String) : Bool := horarioValidL s.data

/-- The time format named by the claim: exactly two-digit `HH:MM` with the
hour value between 0 and 23 and the minute value between 0 and 59. -/
def specTwoDigitL : List Char → Bool
  | [h1, h2, ':', m1, m2] =>
    decide (48 ≤ h1.toNat) && decide (h1.toNat ≤ 57) &&
    decide (48 ≤ h2.toNat) && decide (h2.toNat ≤ 57) &&
    decide (48 ≤ m1.toNat) && decide (m1.toNat ≤ 57) &&
    decide (48 ≤ m2.toNat) && decide (m2.toNat ≤ 57) &&
    decide ((h1.toNat - 48) * 10 + (h2.toNat - 48) ≤ 23) &&
    decide ((m1.toNat - 48) * 10 + (m2.toNat - 48) ≤ 59)
  | _ => false

def specTwoDigitHHMM (s : String) : Bool := specTwoDigitL s.data

/-- The amended acceptance condition: two-digit `HH:MM` with hour 00-23 and
minutes 00-59, or single-digit `H:MM` with hour 0-9 and minutes 00-59. -/
def amendedTimeOkL : List Char → Bool
  | [h1, h2, ':', m1, m2] =>
    decide (48 ≤ h1.toNat) && decide (h1.toNat ≤ 57) &&
    decide (48 ≤ h2.toNat) && decide (h2.toNat ≤ 57) &&
    decide (48 ≤ m1.toNat) && decide (m1.toNat ≤ 57) &&
    decide (48 ≤ m2.toNat) && decide (m2.toNat ≤ 57) &&
    decide ((h1.toNat - 48) * 10 + (h2.toNat - 48) ≤ 23) &&
    decide ((m1.toNat - 48) * 10 + (m2.toNat - 48) ≤ 59)
  | [h, ':', m1, m2] =>
    decide (48 ≤ h.toNat) && decide (h.toNat ≤ 57) &&
    decide (48 ≤ m1.toNat) && decide (m1.toNat ≤ 57) &&
    decide (48 ≤ m2.toNat) && decide (m2.toNat ≤ 57) &&
    decide ((m1.toNat - 48) * 10 + (m2.toNat - 48) ≤ 59)
  | _ => false

def amendedTimeOk (s : String) : Bool := amendedTimeOkL s.data

/-- The minute-of-day value of an `H:MM` / `HH:MM` string (clock-time
interpretation of `horario`). -/
def clockVal (s : String) : Nat :=
  match s.data with
  | [h1, h2, ':', m1, m2] =>
    ((h1.toNat - 48) * 10 + (h2.toNat - 48)) * 60 + (m1.toNat - 48) * 10 + (m2.toNat - 48)
  | [h, ':', m1, m2] => (h.toNat - 48) * 60 + (m1.toNat - 48) * 10 + (m2.toNat - 48)
  | _ => 0

/-- `POST /agenda` (`server.js` lines 229-251).  `dateOk` stands for the JS
`new Date(data_evento)` validity check; an empty string models a missing or
empty field (both falsy). -/
def postAgenda (dateOk : String → Bool) (t : List AgRow) (newId : Nat)
    (titulo data_evento horario lcl : String) (dbFails : Bool) : List AgRow × List Ev :=
  if titulo = "" ∨ data_evento = "" ∨ horario = "" ∨ lcl = "" then
    (t, [.respond 400 "Preencha todos os campos."])
  else if dateOk data_evento = false then
    (t, [.respond 400 "Formato de data inválido. Use YYYY-MM-DD."])
  else if horarioValid horario = false then
    (t, [.respond 400 "Formato de horário inválido. Use HH:MM."])
  else if dbFails then
    (t, [.respond 500 "Erro ao cadastrar evento."])
  else
    (t ++ [⟨newId, titulo, data_evento, horario, lcl⟩],
     [.update 1, .respond 200 "Evento adicionado com sucesso!"])

/-- JS truthiness of an optional string body field: `undefined` and `""` are
both falsy. -/
def truthy : Option String → Bool
  | none => false
  | some s => s != ""

/-- One `col = ?` assignment of the dynamically built agenda UPDATE. -/
inductive AgField where
  | ftitulo (v : String)
  | fdata (v : String)
  | fhorario (v : String)
  | flocal (v : String)
deriving DecidableEq, Repr

/-- The `updates` array built by `PUT /agenda/:id`. -/
def agUpdates (titulo data_evento horario lcl : Option String) : List AgField :=
  (if truthy titulo then [AgField.ftitulo (titulo.getD "")] else []) ++
  (if truthy data_evento then [AgField.fdata (data_evento.getD "")] else []) ++
  (if truthy horario then [AgField.fhorario (horario.getD "")] else []) ++
  (if truthy lcl then [AgField.flocal (lcl.getD "")] else [])

def applyAgField (r : AgRow) : AgField → AgRow
  | .ftitulo v => { r with titulo := v }
  | .fdata v => { r with data_evento := v }
  | .fhorario v => { r with horario := v }
  | .flocal v => { r with lcl := v }

/-- `PUT /agenda/:id` (`server.js` lines 254-306). -/
def putAgenda (dateOk : String → Bool) (t : List AgRow) (id : Nat)
    (titulo data_evento horario lcl : Option String) (dbFails : Bool) :
    List AgRow × List Ev :=
  if truthy titulo = false ∧ truthy data_evento = false ∧ truthy horario = false ∧
      truthy lcl = false then
    (t, [.respond 400 "Pelo menos um campo deve ser fornecido para atualização."])
  else if truthy data_evento = true ∧ dateOk (data_evento.getD "") = false then
    (t, [.respond 400 "Formato de data inválido. Use YYYY-MM-DD."])
  else if truthy horario = true ∧ horarioValid (horario.getD "") = false then
    (t, [.respond 400 "Formato de horário inválido. Use HH:MM."])
  else if agUpdates titulo data_evento horario lcl = [] then
    (t, [.respond 400 "Nenhum campo válido para atualização fornecido."])
  else if dbFails then
    (t, [.respond 500 "Erro ao atualizar evento."])
  else if (t.filter (fun r => r.id == id)).length = 0 then
    (t, [.update 0, .respond 404 "Evento não encontrado."])
  else
    (t.map (fun r =>
       if r.id = id then (agUpdates titulo data_evento horario lcl).foldl applyAgField r
       else r),
     [.update (t.filter (fun r => r.id == id)).length,
      .respond 200 "Evento atualizado com sucesso!"])

/-- Normalisation that maps an empty-string field to an absent field. -/
def normF (x : Option String) : Option String := if x = some "" then none else x

/-- Code-point lexicographic `≤` on char lists: the comparison the text
columns are ordered by. -/
def lexLe : List Char → List Char → Bool
  | [], _ => true
  | _ :: _, [] => false
  | a :: as, b :: bs =>
    if a.toNat < b.toNat then true
    else if b.toNat < a.toNat then false
    else lexLe as bs

def strLe (s1 s2 : String) : Bool := lexLe s1.data s2.data

/-- `ORDER BY data_evento ASC, horario ASC` over text columns: lexicographic
on the date string, then on the time string. -/
def agOrd (r1 r2 : AgRow) : Prop :=
  strLe r1.data_evento r2.data_evento = true ∧
    (strLe r2.data_evento r1.data_evento = true → strLe r1.horario r2.horario = true)

instance : DecidableRel agOrd := fun r1 r2 => by
  unfold agOrd; infer_instance

theorem lexLe_total : ∀ a b : List Char, lexLe a b = true ∨ lexLe b a = true := by
  intro a
  induction a with
  | nil => intro b; exact Or.inl rfl
  | cons x xs ih =>
    intro b
    cases b with
    | nil => exact Or.inr rfl
    | cons y ys =>
      simp only [lexLe]
      rcases Nat.lt_trichotomy x.toNat y.toNat with h | h | h
      · left; simp [h]
      · have h1 : ¬ x.toNat < y.toNat := by omega
        have h2 : ¬ y.toNat < x.toNat := by omega
        simpa [h1, h2] using ih ys
      · right; simp [h]

theorem lexLe_trans : ∀ a b c : List Char,
    lexLe a b = true → lexLe b c = true → lexLe a c = true := by
  intro a
  induction a with
  | nil => intro b c _ _; rfl
  | cons x xs ih =>
    intro b c hab hbc
    cases b with
    | nil => simp [lexLe] at hab
    | cons y ys =>
      cases c with
      | nil => simp [lexLe] at hbc
      | cons z zs =>
        simp only [lexLe] at hab hbc ⊢
        by_cases hxy : x.toNat < y.toNat
        · by_cases hyz : y.toNat < z.toNat
          · simp [show x.toNat < z.toNat by omega]
          · by_cases hzy : z.toNat < y.toNat
            · simp [hyz, hzy] at hbc
            · simp [show x.toNat < z.toNat by omega]
        · by_cases hyx : y.toNat < x.toNat
          · simp [hxy, hyx] at hab
          · by_cases hyz : y.toNat < z.toNat
            · simp [show x.toNat < z.toNat by omega]
            · by_cases hzy : z.toNat < y.toNat
              · simp [hyz, hzy] at hbc
              · have hxz : ¬ x.toNat < z.toNat := by omega
                have hzx : ¬ z.toNat < x.toNat := by omega
                simp only [if_neg hxy, if_neg hyx] at hab
                simp only [if_neg hyz, if_neg hzy] at hbc
                simp only [if_neg hxz, if_neg hzx]
                exact ih ys zs hab hbc

instance : IsTotal AgRow agOrd := by
  constructor
  intro a b
  unfold agOrd strLe
  by_cases hab : lexLe a.data_evento.data b.data_evento.data = true
  · by_cases hba : lexLe b.data_evento.data a.data_evento.data = true
    · rcases lexLe_total a.horario.data b.horario.data with h3 | h3
      · exact Or.inl ⟨hab, fun _ => h3⟩
      · exact Or.inr ⟨hba, fun _ => h3⟩
    · exact Or.inl ⟨hab, fun hh => absurd hh hba⟩
  · rcases lexLe_total a.data_evento.data b.data_evento.data with h | hba
    · exact absurd h hab
    · exact Or.inr ⟨hba, fun hh => absurd hh hab⟩

instance : IsTrans AgRow agOrd := by
  constructor
  intro a b c hab hbc
  obtain ⟨hab1, hab2⟩ := hab
  obtain ⟨hbc1, hbc2⟩ := hbc
  refine ⟨lexLe_trans _ _ _ hab1 hbc1, fun hca => ?_⟩
  have hba : strLe b.data_evento a.data_evento = true := lexLe_trans _ _ _ hbc1 hca
  have hcb : strLe c.data_evento b.data_evento = true := lexLe_trans _ _ _ hca hab1
  exact lexLe_trans _ _ _ (hab2 hba) (hbc2 hcb)

/-- `GET /agenda` (`server.js` lines 309-317). -/
def getAgenda (t : List AgRow) : List AgRow := List.insertionSort agOrd t

/-- `ORDER BY criado_em DESC`. -/
def cultoDescOrd (r1 r2 : Row) : Prop := r2.criado_em ≤ r1.criado_em

instance : DecidableRel cultoDescOrd := fun r1 r2 => by
  unfold cultoDescOrd; infer_instance

instance : IsTotal Row cultoDescOrd := by
  constructor
  intro a b
  rcases le_total b.criado_em a.criado_em with h | h
  · exact Or.inl h
  · exact Or.inr h

instance : IsTrans Row cultoDescOrd := by
  constructor
  intro a b c hab hbc
  exact hbc.trans hab

/-- `GET /cultos/ultimo` (`server.js` lines 216-224): status 200 and
`results[0]` of the DESC-ordered table (`none` when the table is empty, the
body the spec calls null). -/
def getUltimo (t : Table) : Nat × Option Row :=
  (200, (List.insertionSort cultoDescOrd t).head?)

/-- Concrete password comparison used in counterexamples (stands for a
`bcrypt.compare` implementation). -/
def cmpEq : String → String → Bool := fun p h => p == h

/-- Concrete `users` table used in counterexamples. -/
def usersCx : List User := [⟨1, "admin", "h1"⟩]

/-- Concrete agenda rows used in the ordering counterexample. -/
def agR1 : AgRow := ⟨1, "A", "2024-03-01", "10:00", "L"⟩

def agR2 : AgRow := ⟨2, "B", "2024-03-01", "9:30", "L"⟩

/-! ### Theorems -/

theorem horarioValidL_eq_amendedL : ∀ l : List Char, horarioValidL l = amendedTimeOkL l := by
  intro l
  unfold horarioValidL amendedTimeOkL
  split
  · rw [Bool.eq_iff_iff]
    simp only [Bool.and_eq_true, Bool.or_eq_true, decide_eq_true_eq]
    omega
  · rw [Bool.eq_iff_iff]
    simp only [Bool.and_eq_true, Bool.or_eq_true, decide_eq_true_eq]
    omega
  · rfl

/-- C4 (counterexample): the two login failure responses are not identical.
With a concrete store holding only `admin`, an unknown username and a wrong
password for `admin` both give status 401, but the `erro` messages differ, so
the claim that the responses are identical is false. -/
theorem c4_login_counterexample :
    (login cmpEq usersCx "ghost" "pw").1 = 401 ∧
    (login cmpEq usersCx "admin" "wrong").1 = 401 ∧
    ¬ login cmpEq usersCx "ghost" "pw" = login cmpEq usersCx "admin" "wrong" := by
  refine ⟨rfl, rfl, ?_⟩
  decide

/-- C4 (amended): for every login whose username matches no account and every
login whose username matches but whose password fails the hash comparison,
both failure responses carry status 401, but the error messages differ
("Usuário não encontrado ou credenciais inválidas." vs "Senha incorreta ou
credenciais inválidas."), so a caller can distinguish the two cases by the
message even though the status is the same. -/
theorem c4_login_failures_same_status_distinct_messages
    (compare : String → String → Bool) (users : List User)
    (u1 p1 u2 p2 : String) (hu1 : u1 ≠ "") (hp1 : p1 ≠ "")
    (hu2 : u2 ≠ "") (hp2 : p2 ≠ "")
    (habs : users.find? (fun u => u.username == u1) = none)
    (acc : User) (hfind : users.find? (fun u => u.username == u2) = some acc)
    (hmm : compare p2 acc.password = false) :
    (login compare users u1 p1).1 = 401 ∧ (login compare users u2 p2).1 = 401 ∧
    (login compare users u1 p1).2 ≠ (login compare users u2 p2).2 := by
  have e1 : login compare users u1 p1 =
      (401, "Usuário não encontrado ou credenciais inválidas.") := by
    unfold login
    rw [if_neg (by simp [hu1, hp1]), habs]
  have e2 : login compare users u2 p2 =
      (401, "Senha incorreta ou credenciais inválidas.") := by
    unfold login
    rw [if_neg (by simp [hu2, hp2]), hfind]
    simp [hmm]
  rw [e1, e2]
  exact ⟨rfl, rfl, by decide⟩

theorem c4_login_failures_witness :
    ("ghost" : String) ≠ "" ∧ ("pw" : String) ≠ "" ∧
    ("admin" : String) ≠ "" ∧ ("wrong" : String) ≠ "" ∧
    usersCx.find? (fun u => u.username == "ghost") = none ∧
    usersCx.find? (fun u => u.username == "admin") = some ⟨1, "admin", "h1"⟩ ∧
    cmpEq "wrong" (⟨1, "admin", "h1"⟩ : User).password = false ∧
    ((login cmpEq usersCx "ghost" "pw").1 = 401 ∧
     (login cmpEq usersCx "admin" "wrong").1 = 401 ∧
     (login cmpEq usersCx "ghost" "pw").2 ≠ (login cmpEq usersCx "admin" "wrong").2) :=
  ⟨by decide, by decide, by decide, by decide, by decide, by decide, by decide,
   c4_login_failures_same_status_distinct_messages cmpEq usersCx "ghost" "pw" "admin" "wrong"
     (by decide) (by decide) (by decide) (by decide) (by decide)
     ⟨1, "admin", "h1"⟩ (by decide) (by decide)⟩

/-- C5: a create-culto request with a missing title or no uploaded image gets
the 400 response, the table is unchanged (no insert), and no destroy call is
issued for an already-uploaded image (the accepted orphan leak). -/
theorem c5_create_validation (s : Table) (titulo : String) (img : Option Img)
    (newId now : Nat) (dbFails : Bool) (h : titulo = "" ∨ img = none) :
    postCulto s titulo img newId now dbFails =
      (s, [Ev.respond 400
        "Faltando título ou imagem. Certifique-se de que a imagem foi enviada."]) ∧
    destroysOf (postCulto s titulo img newId now dbFails).2 = [] := by
  rcases h with h | h
  · subst h
    cases img with
    | none => exact ⟨rfl, rfl⟩
    | some im =>
      refine ⟨by simp [postCulto], ?_⟩
      simp [postCulto, destroysOf, evDestroy]
  · subst h
    exact ⟨rfl, rfl⟩

theorem c5_create_validation_witness :
    (("" : String) = "" ∨ (some (⟨"u", "p"⟩ : Img)) = none) ∧
    (postCulto [] "" (some ⟨"u", "p"⟩) 1 0 false =
      ([], [Ev.respond 400
        "Faltando título ou imagem. Certifique-se de que a imagem foi enviada."]) ∧
     destroysOf (postCulto [] "" (some ⟨"u", "p"⟩) 1 0 false).2 = []) :=
  ⟨Or.inl rfl, c5_create_validation [] "" (some ⟨"u", "p"⟩) 1 0 false (Or.inl rfl)⟩

/-- C6 (counterexample): the time "9:30" does not match two-digit `HH:MM`,
yet the regex accepts it and the create-agenda handler inserts the row and
responds 200, so the claimed acceptance condition is wrong. -/
theorem c6_time_counterexample :
    horarioValid "9:30" = true ∧ specTwoDigitHHMM "9:30" = false ∧
    postAgenda (fun _ => true) [] 1 "T" "2024-01-01" "9:30" "L" false =
      ([⟨1, "T", "2024-01-01", "9:30", "L"⟩],
       [Ev.update 1, Ev.respond 200 "Evento adicionado com sucesso!"]) :=
  ⟨by decide, by decide, by decide⟩

/-- C6 (amended): the supplied time string is accepted exactly when it is
two-digit `HH:MM` with hours 00-23 and minutes 00-59 or single-digit `H:MM`
with hours 0-9 and minutes 00-59; any other string is rejected with 400 by
both the agenda create and the agenda update handler, with no row inserted or
updated; and when all fields are present and valid the create handler inserts
exactly the new row. -/
theorem c6_time_validation :
    (∀ s : String, horarioValid s = amendedTimeOk s) ∧
    (∀ (dateOk : String → Bool) (t : List AgRow) (newId : Nat)
        (titulo data_evento horario lcl : String) (b : Bool),
        horarioValid horario = false →
        ∃ m, postAgenda dateOk t newId titulo data_evento horario lcl b =
          (t, [Ev.respond 400 m])) ∧
    (∀ (dateOk : String → Bool) (t : List AgRow) (id : Nat)
        (titulo data_evento horario lcl : Option String) (b : Bool),
        truthy horario = true → horarioValid (horario.getD "") = false →
        ∃ m, putAgenda dateOk t id titulo data_evento horario lcl b =
          (t, [Ev.respond 400 m])) ∧
    (∀ (dateOk : String → Bool) (t : List AgRow) (newId : Nat)
        (titulo data_evento horario lcl : String),
        titulo ≠ "" → data_evento ≠ "" → horario ≠ "" → lcl ≠ "" →
        dateOk data_evento = true → horarioValid horario = true →
        postAgenda dateOk t newId titulo data_evento horario lcl false =
          (t ++ [⟨newId, titulo, data_evento, horario, lcl⟩],
           [Ev.update 1, Ev.respond 200 "Evento adicionado com sucesso!"])) := by
  refine ⟨fun s => horarioValidL_eq_amendedL s.data, ?_, ?_, ?_⟩
  · intro dateOk t newId titulo data_evento horario lcl b h
    unfold postAgenda
    split_ifs with h1 h2
    · exact ⟨_, rfl⟩
    · exact ⟨_, rfl⟩
    · exact ⟨_, rfl⟩
  · intro dateOk t id titulo data_evento horario lcl b ht h
    unfold putAgenda
    split_ifs with h1 h2 h3 h4 h5 h6
    · exact ⟨_, rfl⟩
    · exact ⟨_, rfl⟩
    · exact ⟨_, rfl⟩
    · exact absurd ⟨ht, h⟩ h3
    · exact absurd ⟨ht, h⟩ h3
    · exact absurd ⟨ht, h⟩ h3
    · exact absurd ⟨ht, h⟩ h3
  · intro dateOk t newId titulo data_evento horario lcl h1 h2 h3 h4 hd hh
    unfold postAgenda
    rw [if_neg (by simp [h1, h2, h3, h4]), if_neg (by simp [hd]),
      if_neg (by simp [hh]), if_neg (by simp)]

theorem c6_time_validation_witness :
    (horarioValid "23:59" = amendedTimeOk "23:59") ∧
    (∃ m, postAgenda (fun _ => true) [] 1 "T" "2024-01-01" "25:61" "L" false =
      ([], [Ev.respond 400 m])) ∧
    (∃ m, putAgenda (fun _ => true) [] 1 none none (some "25:61") none false =
      ([], [Ev.respond 400 m])) ∧
    (postAgenda (fun _ => true) [] 1 "T" "2024-01-01" "08:00" "L" false =
      ([⟨1, "T", "2024-01-01", "08:00", "L"⟩],
       [Ev.update 1, Ev.respond 200 "Evento adicionado com sucesso!"])) :=
  ⟨c6_time_validation.1 "23:59",
   c6_time_validation.2.1 (fun _ => true) [] 1 "T" "2024-01-01" "25:61" "L" false (by decide),
   c6_time_validation.2.2.1 (fun _ => true) [] 1 none none (some "25:61") none false
     (by decide) (by decide),
   c6_time_validation.2.2.2 (fun _ => true) [] 1 "T" "2024-01-01" "08:00" "L"
     (by decide) (by decide) (by decide) (by decide) (by decide) (by decide)⟩

theorem truthy_normF (x : Option String) : truthy (normF x) = truthy x := by
  unfold normF
  split
  · rename_i h; subst h; rfl
  · rfl

theorem normF_getD (x : Option String) : (normF x).getD "" = x.getD "" := by
  unfold normF
  split
  · rename_i h; subst h; rfl
  · rfl

/-- C9: in the agenda update handler an empty-string field behaves exactly
like an absent field (the run is unchanged when every `some ""` is replaced
by `none`, so it is never written and never validated), and a request whose
only supplied fields are empty strings is rejected with the same 400 as a
request with no fields at all. -/
theorem c9_agenda_empty_string_fields (dateOk : String → Bool) (t : List AgRow)
    (id : Nat) (titulo data_evento horario lcl : Option String) (b : Bool) :
    putAgenda dateOk t id titulo data_evento horario lcl b =
      putAgenda dateOk t id (normF titulo) (normF data_evento) (normF horario)
        (normF lcl) b ∧
    putAgenda dateOk t id (some "") (some "") (some "") (some "") b =
      (t, [Ev.respond 400 "Pelo menos um campo deve ser fornecido para atualização."]) := by
  constructor
  · simp only [putAgenda, agUpdates, truthy_normF, normF_getD]
  · rfl

theorem agUpdates_eq_nil_iff (titulo data_evento horario lcl : Option String) :
    agUpdates titulo data_evento horario lcl = [] ↔
      truthy titulo = false ∧ truthy data_evento = false ∧ truthy horario = false ∧
        truthy lcl = false := by
  unfold agUpdates
  cases htit : truthy titulo <;> cases hdat : truthy data_evento <;>
    cases hhor : truthy horario <;> cases hlcl : truthy lcl <;> simp

/-- C10: the secondary "no valid field" 400 branch of the agenda update
handler is unreachable: its response message never occurs in the events of
any run, because whenever the initial all-fields-absent check passes the
built update list is nonempty (or a 400 validation error was returned
first). -/
theorem c10_agenda_dead_branch (dateOk : String → Bool) (t : List AgRow)
    (id : Nat) (titulo data_evento horario lcl : Option String) (b : Bool) :
    Ev.respond 400 "Nenhum campo válido para atualização fornecido." ∉
      (putAgenda dateOk t id titulo data_evento horario lcl b).2 := by
  unfold putAgenda
  split_ifs with h1 h2 h3 h4 h5 h6
  · simp
  · simp
  · simp
  · exact absurd ((agUpdates_eq_nil_iff titulo data_evento horario lcl).mp h4) h1
  · simp
  · simp
  · simp

/-- C3: updating a culto whose id matches no row responds 404; when a new
image was uploaded, exactly one destroy call is issued and it targets the new
image's deletion handle; with no uploaded image no destroy call is issued.
Either way the table is unchanged. -/
theorem c3_update_missing_id (s : Table) (id : Nat) (habs : ∀ r ∈ s, r.id ≠ id) :
    (∀ (titulo : String) (im : Img),
      putCulto s id titulo (some im) false =
        (s, [Ev.update 0, Ev.destroy im.pid, Ev.respond 404 "Culto não encontrado."]) ∧
      destroysOf (putCulto s id titulo (some im) false).2 = [im.pid]) ∧
    (∀ titulo : String, titulo ≠ "" →
      putCulto s id titulo none false =
        (s, [Ev.update 0, Ev.respond 404 "Culto não encontrado."]) ∧
      destroysOf (putCulto s id titulo none false).2 = []) := by
  have hfil : s.filter (fun r => r.id == id) = [] := by
    rw [List.filter_eq_nil_iff]
    intro r hr
    simpa using habs r hr
  constructor
  · intro titulo im
    have he : putCulto s id titulo (some im) false =
        (s, [Ev.update 0, Ev.destroy im.pid, Ev.respond 404 "Culto não encontrado."]) := by
      unfold putCulto
      rw [if_neg (by simp), if_neg (by simp), if_pos (by rw [hfil]; rfl)]
      rfl
    refine ⟨he, ?_⟩
    rw [he]
    rfl
  · intro titulo ht
    have he : putCulto s id titulo none false =
        (s, [Ev.update 0, Ev.respond 404 "Culto não encontrado."]) := by
      unfold putCulto
      rw [if_neg (by simp [ht]), if_neg (by simp), if_pos (by rw [hfil]; rfl)]
      rfl
    refine ⟨he, ?_⟩
    rw [he]
    rfl

theorem c3_update_missing_id_witness :
    (∀ r ∈ ([⟨7, "t", "u", some "p", 0⟩] : Table), r.id ≠ 3) ∧
    (putCulto [⟨7, "t", "u", some "p", 0⟩] 3 "novo" (some ⟨"u2", "pn"⟩) false =
      ([⟨7, "t", "u", some "p", 0⟩],
       [Ev.update 0, Ev.destroy "pn", Ev.respond 404 "Culto não encontrado."]) ∧
     destroysOf (putCulto [⟨7, "t", "u", some "p", 0⟩] 3 "novo" (some ⟨"u2", "pn"⟩) false).2 =
       ["pn"]) ∧
    (putCulto [⟨7, "t", "u", some "p", 0⟩] 3 "novo" none false =
      ([⟨7, "t", "u", some "p", 0⟩],
       [Ev.update 0, Ev.respond 404 "Culto não encontrado."]) ∧
     destroysOf (putCulto [⟨7, "t", "u", some "p", 0⟩] 3 "novo" none false).2 = []) :=
  ⟨by decide,
   (c3_update_missing_id [⟨7, "t", "u", some "p", 0⟩] 3 (by decide)).1 "novo" ⟨"u2", "pn"⟩,
   (c3_update_missing_id [⟨7, "t", "u", some "p", 0⟩] 3 (by decide)).2 "novo" (by decide)⟩

/-- C7 (counterexample): with two rows on the same date and horario strings
"10:00" and "9:30", the listing keeps "10:00" (the lexicographically smaller
text) before "9:30", although as clock times 9:30 is earlier than 10:00 —
the output is not ordered by time-of-day within equal dates. -/
theorem c7_order_counterexample :
    getAgenda [agR1, agR2] = [agR1, agR2] ∧
    agR1.data_evento = agR2.data_evento ∧
    clockVal agR2.horario < clockVal agR1.horario :=
  ⟨by decide, by decide, by decide⟩

/-- C7 (amended): listing agenda events returns a permutation of the table
(all rows, regardless of insertion order) sorted by event date ascending and,
within equal dates, by `horario` ascending as text; for zero-padded `HH:MM`
values this coincides with time-of-day order, but single-digit-hour values
accepted by the validator are ordered as strings, not as clock times. -/
theorem c7_order_sorted (t : List AgRow) :
    List.Sorted agOrd (getAgenda t) ∧ List.Perm (getAgenda t) t :=
  ⟨List.sorted_insertionSort agOrd t, List.perm_insertionSort agOrd t⟩

/-- C8: `GET /cultos/ultimo` responds 200 with no row (the null body) when
the table is empty, and responds 200 with a row attaining the greatest
creation timestamp when the table is nonempty. -/
theorem c8_ultimo (t : Table) :
    (t = [] → getUltimo t = (200, none)) ∧
    (t ≠ [] → (getUltimo t).1 = 200 ∧
      ∃ r, (getUltimo t).2 = some r ∧ r ∈ t ∧ ∀ q ∈ t, q.criado_em ≤ r.criado_em) := by
  constructor
  · intro h; subst h; rfl
  · intro h
    refine ⟨rfl, ?_⟩
    have hperm := List.perm_insertionSort cultoDescOrd t
    have hsort := List.sorted_insertionSort cultoDescOrd t
    cases hl : List.insertionSort cultoDescOrd t with
    | nil =>
      exact absurd ((hl ▸ hperm).symm.eq_nil) h
    | cons r rest =>
      rw [hl] at hperm hsort
      refine ⟨r, by simp [getUltimo, hl], hperm.mem_iff.mp (List.mem_cons_self r rest), ?_⟩
      intro q hq
      have hq2 : q ∈ r :: rest := hperm.mem_iff.mpr hq
      rcases List.mem_cons.mp hq2 with hq3 | hq3
      · subst hq3; exact Nat.le_refl _
      · exact (List.pairwise_cons.mp hsort).1 q hq3

theorem c8_ultimo_witness :
    getUltimo [] = (200, none) ∧
    (([⟨1, "a", "u", none, 5⟩, ⟨2, "b", "v", none, 9⟩] : Table) ≠ [] ∧
     (getUltimo [⟨1, "a", "u", none, 5⟩, ⟨2, "b", "v", none, 9⟩]).1 = 200 ∧
     ∃ r, (getUltimo [⟨1, "a", "u", none, 5⟩, ⟨2, "b", "v", none, 9⟩]).2 = some r ∧
       r ∈ ([⟨1, "a", "u", none, 5⟩, ⟨2, "b", "v", none, 9⟩] : Table) ∧
       ∀ q ∈ ([⟨1, "a", "u", none, 5⟩, ⟨2, "b", "v", none, 9⟩] : Table),
         q.criado_em ≤ r.criado_em) :=
  ⟨(c8_ultimo []).1 rfl,
   by decide,
   (c8_ultimo [⟨1, "a", "u", none, 5⟩, ⟨2, "b", "v", none, 9⟩]).2 (by decide)⟩

/-- C2: updating an existing culto with a new image and no title changes only
`imagem_path` and `public_id` of the rows matching the id (every id, titulo
and criado_em is unchanged, and non-matching rows are untouched), and in
every run (DB failure included) a destroy call aimed at the previous image's
deletion handle occurs only strictly after an update event reporting at
least one affected row — never before. -/
theorem c2_update_image_only (s : Table) (id : Nat) (im : Img)
    (hrow : ∃ r ∈ s, r.id = id)
    (hfresh : ∀ r ∈ s, r.public_id ≠ some im.pid) :
    ((putCulto s id "" (some im) false).1.length = s.length ∧
     ∀ i (hi : i < s.length) (hi2 : i < (putCulto s id "" (some im) false).1.length),
       (((putCulto s id "" (some im) false).1.get ⟨i, hi2⟩).id = (s.get ⟨i, hi⟩).id ∧
        ((putCulto s id "" (some im) false).1.get ⟨i, hi2⟩).titulo = (s.get ⟨i, hi⟩).titulo ∧
        ((putCulto s id "" (some im) false).1.get ⟨i, hi2⟩).criado_em =
          (s.get ⟨i, hi⟩).criado_em) ∧
       ((s.get ⟨i, hi⟩).id ≠ id →
         (putCulto s id "" (some im) false).1.get ⟨i, hi2⟩ = s.get ⟨i, hi⟩) ∧
       ((s.get ⟨i, hi⟩).id = id →
         ((putCulto s id "" (some im) false).1.get ⟨i, hi2⟩).imagem_path = im.path ∧
         ((putCulto s id "" (some im) false).1.get ⟨i, hi2⟩).public_id = some im.pid)) ∧
    (∀ (b : Bool) (pre post : List Ev) (o : String),
      (putCulto s id "" (some im) b).2 = pre ++ Ev.destroy o :: post →
      oldPid s id = some o →
      ∃ n, 1 ≤ n ∧ Ev.update n ∈ pre) := by
  have haff : ¬ (s.filter (fun r => r.id == id)).length = 0 := by
    obtain ⟨r, hr, hrid⟩ := hrow
    have hmem : r ∈ s.filter (fun r => r.id == id) :=
      List.mem_filter.mpr ⟨hr, by simp [hrid]⟩
    simpa [List.length_eq_zero] using List.ne_nil_of_mem hmem
  have heq : putCulto s id "" (some im) false =
      (s.map fun r => if r.id = id then applyCulto r "" (some im) else r,
       [Ev.update (s.filter (fun r => r.id == id)).length] ++
       (match oldPid s id with | some o => [Ev.destroy o] | none => []) ++
       [Ev.respond 200 "Culto atualizado com sucesso!"]) := by
    unfold putCulto
    rw [if_neg (by simp), if_neg (by simp), if_neg haff]
  refine ⟨⟨?_, ?_⟩, ?_⟩
  · rw [heq]; exact List.length_map s _
  · intro i hi hi2
    have hg : (putCulto s id "" (some im) false).1.get ⟨i, hi2⟩ =
        (if (s.get ⟨i, hi⟩).id = id then applyCulto (s.get ⟨i, hi⟩) "" (some im)
         else s.get ⟨i, hi⟩) := by
      have := heq
      revert hi2
      rw [this]
      intro hi2
      simp [List.get_eq_getElem, List.getElem_map]
    rw [hg]
    by_cases hid : (s.get ⟨i, hi⟩).id = id
    · have happ : applyCulto (s.get ⟨i, hi⟩) "" (some im) =
          { s.get ⟨i, hi⟩ with imagem_path := im.path, public_id := some im.pid } := rfl
      rw [if_pos hid, happ]
      exact ⟨⟨rfl, rfl, rfl⟩, fun hc => absurd hid hc, fun _ => ⟨rfl, rfl⟩⟩
    · rw [if_neg hid]
      exact ⟨⟨rfl, rfl, rfl⟩, fun _ => rfl, fun hc => absurd hc hid⟩
  · intro b pre post o hsplit hold
    have hone : o ≠ im.pid := by
      unfold oldPid at hold
      cases hfind : s.find? (fun r => r.id == id) with
      | none => rw [hfind] at hold; simp at hold
      | some r0 =>
        rw [hfind] at hold
        have hr0 : r0 ∈ s := List.mem_of_find?_eq_some hfind
        have hpid : r0.public_id = some o := by simpa using hold
        intro hcon
        exact hfresh r0 hr0 (by rw [hpid, hcon])
    cases b with
    | true =>
      have hev : (putCulto s id "" (some im) true).2 =
          [Ev.destroy im.pid, Ev.respond 500 "Erro ao atualizar culto."] := by
        unfold putCulto
        rw [if_neg (by simp), if_pos rfl]
        rfl
      rw [hev] at hsplit
      rcases pre with _ | ⟨e1, _ | ⟨e2, pre'⟩⟩
      · simp only [List.nil_append, List.cons.injEq, Ev.destroy.injEq] at hsplit
        exact absurd hsplit.1.symm hone
      · simp only [List.cons_append, List.nil_append, List.cons.injEq] at hsplit
        exact absurd hsplit.2.1 (by simp)
      · simp only [List.cons_append, List.cons.injEq] at hsplit
        have hlen := congrArg List.length hsplit.2.2
        simp only [List.length_nil, List.length_append, List.length_cons] at hlen
        omega
    | false =>
      have hev : (putCulto s id "" (some im) false).2 =
          [Ev.update (s.filter (fun r => r.id == id)).length, Ev.destroy o,
           Ev.respond 200 "Culto atualizado com sucesso!"] := by
        rw [heq, hold]
        rfl
      rw [hev] at hsplit
      rcases pre with _ | ⟨e1, _ | ⟨e2, _ | ⟨e3, pre'⟩⟩⟩
      · simp only [List.nil_append, List.cons.injEq] at hsplit
        exact absurd hsplit.1 (by simp)
      · simp only [List.cons_append, List.nil_append, List.cons.injEq] at hsplit
        refine ⟨(s.filter (fun r => r.id == id)).length, by omega, ?_⟩
        rw [← hsplit.1]
        exact List.mem_cons_self _ _
      · simp only [List.cons_append, List.nil_append, List.cons.injEq] at hsplit
        exact absurd hsplit.2.2.1 (by simp)
      · simp only [List.cons_append, List.cons.injEq] at hsplit
        have hlen := congrArg List.length hsplit.2.2.2
        simp only [List.length_cons, List.length_append, List.length_nil] at hlen
        omega

theorem c2_update_image_only_witness :
    (∃ r ∈ ([⟨1, "t", "u", some "po", 5⟩] : Table), r.id = 1) ∧
    (∀ r ∈ ([⟨1, "t", "u", some "po", 5⟩] : Table),
      r.public_id ≠ some (Img.pid ⟨"u2", "pn"⟩)) ∧
    (((putCulto [⟨1, "t", "u", some "po", 5⟩] 1 "" (some ⟨"u2", "pn"⟩) false).1.length =
        ([⟨1, "t", "u", some "po", 5⟩] : Table).length ∧
      ∀ i (hi : i < ([⟨1, "t", "u", some "po", 5⟩] : Table).length)
        (hi2 : i < (putCulto [⟨1, "t", "u", some "po", 5⟩] 1 "" (some ⟨"u2", "pn"⟩) false).1.length),
        (((putCulto [⟨1, "t", "u", some "po", 5⟩] 1 "" (some ⟨"u2", "pn"⟩) false).1.get
            ⟨i, hi2⟩).id = (([⟨1, "t", "u", some "po", 5⟩] : Table).get ⟨i, hi⟩).id ∧
         ((putCulto [⟨1, "t", "u", some "po", 5⟩] 1 "" (some ⟨"u2", "pn"⟩) false).1.get
            ⟨i, hi2⟩).titulo = (([⟨1, "t", "u", some "po", 5⟩] : Table).get ⟨i, hi⟩).titulo ∧
         ((putCulto [⟨1, "t", "u", some "po", 5⟩] 1 "" (some ⟨"u2", "pn"⟩) false).1.get
            ⟨i, hi2⟩).criado_em =
           (([⟨1, "t", "u", some "po", 5⟩] : Table).get ⟨i, hi⟩).criado_em) ∧
        ((([⟨1, "t", "u", some "po", 5⟩] : Table).get ⟨i, hi⟩).id ≠ 1 →
          (putCulto [⟨1, "t", "u", some "po", 5⟩] 1 "" (some ⟨"u2", "pn"⟩) false).1.get
            ⟨i, hi2⟩ = ([⟨1, "t", "u", some "po", 5⟩] : Table).get ⟨i, hi⟩) ∧
        ((([⟨1, "t", "u", some "po", 5⟩] : Table).get ⟨i, hi⟩).id = 1 →
          ((putCulto [⟨1, "t", "u", some "po", 5⟩] 1 "" (some ⟨"u2", "pn"⟩) false).1.get
             ⟨i, hi2⟩).imagem_path = Img.path ⟨"u2", "pn"⟩ ∧
          ((putCulto [⟨1, "t", "u", some "po", 5⟩] 1 "" (some ⟨"u2", "pn"⟩) false).1.get
             ⟨i, hi2⟩).public_id = some (Img.pid ⟨"u2", "pn"⟩))) ∧
     (∀ (b : Bool) (pre post : List Ev) (o : String),
       (putCulto [⟨1, "t", "u", some "po", 5⟩] 1 "" (some ⟨"u2", "pn"⟩) b).2 =
         pre ++ Ev.destroy o :: post →
       oldPid [⟨1, "t", "u", some "po", 5⟩] 1 = some o →
       ∃ n, 1 ≤ n ∧ Ev.update n ∈ pre)) :=
  ⟨⟨⟨1, "t", "u", some "po", 5⟩, by decide, rfl⟩,
   by decide,
   c2_update_image_only [⟨1, "t", "u", some "po", 5⟩] 1 ⟨"u2", "pn"⟩
     ⟨⟨1, "t", "u", some "po", 5⟩, by decide, rfl⟩ (by decide)⟩

theorem RowOk_symm : Symmetric RowOk := by
  intro a b hab
  refine ⟨Ne.symm hab.1, ?_⟩
  intro hbs hcon
  cases ha : a.public_id with
  | none =>
    rw [ha] at hcon
    rw [hcon] at hbs
    simp at hbs
  | some p =>
    exact hab.2 (by rw [ha]; rfl) hcon.symm

theorem imgFresh_prop {s : Table} {img : Option Img} (h : imgFresh s img = true) :
    ∀ im, img = some im → ∀ r ∈ s, r.public_id ≠ some im.pid := by
  intro im him r hr
  subst him
  unfold imgFresh at h
  rw [List.all_eq_true] at h
  simpa using h r hr

theorem idFresh_prop {s : Table} {nid : Nat} (h : s.all (fun r => r.id != nid) = true) :
    ∀ r ∈ s, r.id ≠ nid := by
  intro r hr
  rw [List.all_eq_true] at h
  simpa using h r hr

theorem applyCulto_id (r : Row) (titulo : String) (img : Option Img) :
    (applyCulto r titulo img).id = r.id := by
  cases img with
  | none => rfl
  | some im =>
    simp only [applyCulto]
    split <;> rfl

theorem applyCulto_pid_some (r : Row) (titulo : String) (im : Img) :
    (applyCulto r titulo (some im)).public_id = some im.pid := by
  simp only [applyCulto]
  split <;> rfl

theorem applyCulto_pid_none (r : Row) (titulo : String) :
    (applyCulto r titulo none).public_id = r.public_id := rfl

theorem postCulto_safe (s : Table) (titulo : String) (img : Option Img)
    (newId now : Nat) (b : Bool)
    (hfresh : ∀ im, img = some im → ∀ r ∈ s, r.public_id ≠ some im.pid) :
    ∀ d ∈ destroysOf (postCulto s titulo img newId now b).2,
      ∀ r ∈ (postCulto s titulo img newId now b).1, r.public_id ≠ some d := by
  intro d hd r hr
  cases img with
  | none => simp [postCulto, destroysOf, evDestroy] at hd
  | some im =>
    by_cases ht : titulo = ""
    · have he : postCulto s titulo (some im) newId now b =
          (s, [Ev.respond 400
            "Faltando título ou imagem. Certifique-se de que a imagem foi enviada."]) := by
        simp only [postCulto]
        rw [if_pos ht]
      rw [he] at hd
      simp [destroysOf, evDestroy] at hd
    · cases b with
      | true =>
        have he : postCulto s titulo (some im) newId now true =
            (s, [Ev.destroy im.pid, Ev.respond 500 "Erro ao salvar culto."]) := by
          simp only [postCulto]
          rw [if_neg ht]
          rfl
        rw [he] at hd hr
        have hdp : d = im.pid := by simpa [destroysOf, evDestroy] using hd
        subst hdp
        exact hfresh im rfl r hr
      | false =>
        have he : postCulto s titulo (some im) newId now false =
            (s ++ [⟨newId, titulo, im.path, some im.pid, now⟩],
             [Ev.update 1, Ev.respond 200 "Culto publicado com sucesso!"]) := by
          simp only [postCulto]
          rw [if_neg ht]
          rfl
        rw [he] at hd
        simp [destroysOf, evDestroy] at hd

theorem postCulto_good (s : Table) (titulo : String) (img : Option Img)
    (newId now : Nat) (b : Bool) (hg : good s)
    (hid : ∀ r ∈ s, r.id ≠ newId)
    (hfresh : ∀ im, img = some im → ∀ r ∈ s, r.public_id ≠ some im.pid) :
    good (postCulto s titulo img newId now b).1 := by
  cases img with
  | none => exact hg
  | some im =>
    by_cases ht : titulo = ""
    · have he : (postCulto s titulo (some im) newId now b).1 = s := by
        simp only [postCulto]
        rw [if_pos ht]
      rwa [he]
    · cases b with
      | true =>
        have he : (postCulto s titulo (some im) newId now true).1 = s := by
          simp only [postCulto]
          rw [if_neg ht]
          rfl
        rwa [he]
      | false =>
        have he : (postCulto s titulo (some im) newId now false).1 =
            s ++ [⟨newId, titulo, im.path, some im.pid, now⟩] := by
          simp only [postCulto]
          rw [if_neg ht]
          rfl
        rw [he]
        unfold good
        rw [List.pairwise_append]
        refine ⟨hg, by simp, ?_⟩
        intro a ha r2 hr2
        simp only [List.mem_singleton] at hr2
        subst hr2
        exact ⟨hid a ha, fun _ hcon => hfresh im rfl a ha hcon⟩

theorem putCulto_safe (s : Table) (id : Nat) (titulo : String) (img : Option Img)
    (b : Bool) (hg : good s)
    (hfresh : ∀ im, img = some im → ∀ r ∈ s, r.public_id ≠ some im.pid) :
    ∀ d ∈ destroysOf (putCulto s id titulo img b).2,
      ∀ r ∈ (putCulto s id titulo img b).1, r.public_id ≠ some d := by
  intro d hd r hr
  by_cases hv : titulo = "" ∧ img = none
  · have he : putCulto s id titulo img b =
        (s, [Ev.respond 400
          "Pelo menos um campo (titulo ou imagem) deve ser fornecido para atualização."]) := by
      unfold putCulto
      rw [if_pos hv]
    rw [he] at hd
    simp [destroysOf, evDestroy] at hd
  · cases b with
    | true =>
      cases img with
      | none =>
        have he : putCulto s id titulo none true =
            (s, [Ev.respond 500 "Erro ao atualizar culto."]) := by
          unfold putCulto
          rw [if_neg hv, if_pos rfl]
          rfl
        rw [he] at hd
        simp [destroysOf, evDestroy] at hd
      | some im =>
        have he : putCulto s id titulo (some im) true =
            (s, [Ev.destroy im.pid, Ev.respond 500 "Erro ao atualizar culto."]) := by
          unfold putCulto
          rw [if_neg hv, if_pos rfl]
          rfl
        rw [he] at hd hr
        have hdp : d = im.pid := by simpa [destroysOf, evDestroy] using hd
        subst hdp
        exact hfresh im rfl r hr
    | false =>
      by_cases hlen : (s.filter (fun q => q.id == id)).length = 0
      · cases img with
        | none =>
          have he : putCulto s id titulo none false =
              (s, [Ev.update 0, Ev.respond 404 "Culto não encontrado."]) := by
            unfold putCulto
            rw [if_neg hv, if_neg (by simp), if_pos hlen]
            rfl
          rw [he] at hd
          simp [destroysOf, evDestroy] at hd
        | some im =>
          have he : putCulto s id titulo (some im) false =
              (s, [Ev.update 0, Ev.destroy im.pid,
                   Ev.respond 404 "Culto não encontrado."]) := by
            unfold putCulto
            rw [if_neg hv, if_neg (by simp), if_pos hlen]
            rfl
          rw [he] at hd hr
          have hdp : d = im.pid := by simpa [destroysOf, evDestroy] using hd
          subst hdp
          exact hfresh im rfl r hr
      · cases img with
        | none =>
          have he2 : (putCulto s id titulo none false).2 =
              [Ev.update (s.filter (fun q => q.id == id)).length,
               Ev.respond 200 "Culto atualizado com sucesso!"] := by
            unfold putCulto
            rw [if_neg hv, if_neg (by simp), if_neg hlen]
            rfl
          rw [he2] at hd
          simp [destroysOf, evDestroy] at hd
        | some im =>
          cases hop : oldPid s id with
          | none =>
            have he2 : (putCulto s id titulo (some im) false).2 =
                [Ev.update (s.filter (fun q => q.id == id)).length,
                 Ev.respond 200 "Culto atualizado com sucesso!"] := by
              unfold putCulto
              rw [if_neg hv, if_neg (by simp), if_neg hlen, hop]
              rfl
            rw [he2] at hd
            simp [destroysOf, evDestroy] at hd
          | some o =>
            have he1 : (putCulto s id titulo (some im) false).1 =
                s.map (fun q => if q.id = id then applyCulto q titulo (some im) else q) := by
              unfold putCulto
              rw [if_neg hv, if_neg (by simp), if_neg hlen]
            have he2 : (putCulto s id titulo (some im) false).2 =
                [Ev.update (s.filter (fun q => q.id == id)).length, Ev.destroy o,
                 Ev.respond 200 "Culto atualizado com sucesso!"] := by
              unfold putCulto
              rw [if_neg hv, if_neg (by simp), if_neg hlen, hop]
              rfl
            rw [he2] at hd
            rw [he1] at hr
            have hdo : d = o := by simpa [destroysOf, evDestroy] using hd
            rw [hdo]
            obtain ⟨r1, hr1, hfr⟩ := List.mem_map.mp hr
            obtain ⟨r0, hfind⟩ : ∃ r0, s.find? (fun q => q.id == id) = some r0 := by
              unfold oldPid at hop
              cases hf : s.find? (fun q => q.id == id) with
              | none => rw [hf] at hop; simp at hop
              | some r0 => exact ⟨r0, rfl⟩
            have hr0mem : r0 ∈ s := List.mem_of_find?_eq_some hfind
            have hr0id : r0.id = id := by simpa using List.find?_some hfind
            have hr0pid : r0.public_id = some o := by
              unfold oldPid at hop
              rw [hfind] at hop
              simpa using hop
            have hopid : o ≠ im.pid := by
              intro hcon
              exact hfresh im rfl r0 hr0mem (by rw [hr0pid, hcon])
            subst hfr
            by_cases hid : r1.id = id
            · rw [if_pos hid, applyCulto_pid_some]
              simp only [ne_eq, Option.some.injEq]
              exact fun hcon => hopid hcon.symm
            · rw [if_neg hid]
              have hne : r0 ≠ r1 := fun hcon => hid (by rw [← hcon, hr0id])
              have hro := (hg.forall RowOk_symm) hr0mem hr1 hne
              have h2 := hro.2 (by rw [hr0pid]; rfl)
              rw [hr0pid] at h2
              exact fun hcon => h2 hcon.symm

theorem putCulto_good (s : Table) (id : Nat) (titulo : String) (img : Option Img)
    (b : Bool) (hg : good s)
    (hfresh : ∀ im, img = some im → ∀ r ∈ s, r.public_id ≠ some im.pid) :
    good (putCulto s id titulo img b).1 := by
  by_cases hv : titulo = "" ∧ img = none
  · have he : (putCulto s id titulo img b).1 = s := by
      unfold putCulto
      rw [if_pos hv]
    rwa [he]
  · cases b with
    | true =>
      have he : (putCulto s id titulo img true).1 = s := by
        unfold putCulto
        rw [if_neg hv, if_pos rfl]
      rwa [he]
    | false =>
      by_cases hlen : (s.filter (fun q => q.id == id)).length = 0
      · have he : (putCulto s id titulo img false).1 = s := by
          unfold putCulto
          rw [if_neg hv, if_neg (by simp), if_pos hlen]
        rwa [he]
      · have he : (putCulto s id titulo img false).1 =
            s.map (fun q => if q.id = id then applyCulto q titulo img else q) := by
          unfold putCulto
          rw [if_neg hv, if_neg (by simp), if_neg hlen]
        rw [he]
        unfold good
        rw [List.pairwise_map]
        refine List.Pairwise.imp_of_mem ?_ hg
        intro a c ha hc hac
        show RowOk (if a.id = id then applyCulto a titulo img else a)
          (if c.id = id then applyCulto c titulo img else c)
        by_cases haid : a.id = id <;> by_cases hcid : c.id = id
        · exact absurd (haid.trans hcid.symm) hac.1
        · rw [if_pos haid, if_neg hcid]
          cases img with
          | none =>
            refine ⟨?_, ?_⟩
            · rw [applyCulto_id]; exact hac.1
            · rw [applyCulto_pid_none]; exact hac.2
          | some im =>
            refine ⟨?_, ?_⟩
            · rw [applyCulto_id]; exact hac.1
            · rw [applyCulto_pid_some]
              exact fun _ hcon => hfresh im rfl c hc hcon.symm
        · rw [if_neg haid, if_pos hcid]
          cases img with
          | none =>
            refine ⟨?_, ?_⟩
            · rw [applyCulto_id]; exact hac.1
            · rw [applyCulto_pid_none]; exact hac.2
          | some im =>
            refine ⟨?_, ?_⟩
            · rw [applyCulto_id]; exact hac.1
            · rw [applyCulto_pid_some]
              exact fun _ hcon => hfresh im rfl a ha hcon
        · rw [if_neg haid, if_neg hcid]
          exact hac

theorem deleteCulto_safe (s : Table) (id : Nat) (b : Bool) (hg : good s) :
    ∀ d ∈ destroysOf (deleteCulto s id b).2,
      ∀ r ∈ (deleteCulto s id b).1, r.public_id ≠ some d := by
  intro d hd r hr
  cases b with
  | true => simp [deleteCulto, destroysOf, evDestroy] at hd
  | false =>
    by_cases hlen : (s.filter (fun q => q.id == id)).length = 0
    · have he : deleteCulto s id false =
          (s, [Ev.update 0, Ev.respond 404 "Culto não encontrado."]) := by
        unfold deleteCulto
        rw [if_neg (by simp), if_pos hlen]
      rw [he] at hd
      simp [destroysOf, evDestroy] at hd
    · cases hop : oldPid s id with
      | none =>
        have he2 : (deleteCulto s id false).2 =
            [Ev.update (s.filter (fun q => q.id == id)).length,
             Ev.respond 200 "Culto deletado com sucesso!"] := by
          unfold deleteCulto
          rw [if_neg (by simp), if_neg hlen, hop]
          rfl
        rw [he2] at hd
        simp [destroysOf, evDestroy] at hd
      | some o =>
        have he1 : (deleteCulto s id false).1 = s.filter (fun q => q.id != id) := by
          unfold deleteCulto
          rw [if_neg (by simp), if_neg hlen]
        have he2 : (deleteCulto s id false).2 =
            [Ev.update (s.filter (fun q => q.id == id)).length, Ev.destroy o,
             Ev.respond 200 "Culto deletado com sucesso!"] := by
          unfold deleteCulto
          rw [if_neg (by simp), if_neg hlen, hop]
          rfl
        rw [he2] at hd
        rw [he1] at hr
        have hdo : d = o := by simpa [destroysOf, evDestroy] using hd
        rw [hdo]
        have hrmem : r ∈ s := (List.mem_filter.mp hr).1
        have hrid : r.id ≠ id := by simpa using (List.mem_filter.mp hr).2
        obtain ⟨r0, hfind⟩ : ∃ r0, s.find? (fun q => q.id == id) = some r0 := by
          unfold oldPid at hop
          cases hf : s.find? (fun q => q.id == id) with
          | none => rw [hf] at hop; simp at hop
          | some r0 => exact ⟨r0, rfl⟩
        have hr0mem : r0 ∈ s := List.mem_of_find?_eq_some hfind
        have hr0id : r0.id = id := by simpa using List.find?_some hfind
        have hr0pid : r0.public_id = some o := by
          unfold oldPid at hop
          rw [hfind] at hop
          simpa using hop
        have hne : r0 ≠ r := fun hcon => hrid (by rw [← hcon, hr0id])
        have hro := (hg.forall RowOk_symm) hr0mem hrmem hne
        have h2 := hro.2 (by rw [hr0pid]; rfl)
        rw [hr0pid] at h2
        exact fun hcon => h2 hcon.symm

theorem deleteCulto_good (s : Table) (id : Nat) (b : Bool) (hg : good s) :
    good (deleteCulto s id b).1 := by
  cases b with
  | true => exact hg
  | false =>
    by_cases hlen : (s.filter (fun q => q.id == id)).length = 0
    · have he : (deleteCulto s id false).1 = s := by
        unfold deleteCulto
        rw [if_neg (by simp), if_pos hlen]
      rwa [he]
    · have he : (deleteCulto s id false).1 = s.filter (fun q => q.id != id) := by
        unfold deleteCulto
        rw [if_neg (by simp), if_neg hlen]
      rw [he]
      exact hg.filter _

theorem stepSafe (s : Table) (o : Op) (hg : good s) (hf : opFresh s o = true) :
    ∀ d ∈ destroysOf (stepOp s o).2, ∀ r ∈ (stepOp s o).1, r.public_id ≠ some d := by
  cases o with
  | create t img nid now b =>
    have hf2 := hf
    simp only [opFresh, Bool.and_eq_true] at hf2
    exact postCulto_safe s t img nid now b (imgFresh_prop hf2.2)
  | update id t img b =>
    have hf2 : imgFresh s img = true := by simpa [opFresh] using hf
    exact putCulto_safe s id t img b hg (imgFresh_prop hf2)
  | del id b => exact deleteCulto_safe s id b hg

theorem stepGood (s : Table) (o : Op) (hg : good s) (hf : opFresh s o = true) :
    good (stepOp s o).1 := by
  cases o with
  | create t img nid now b =>
    have hf2 := hf
    simp only [opFresh, Bool.and_eq_true] at hf2
    exact postCulto_good s t img nid now b hg (idFresh_prop hf2.1) (imgFresh_prop hf2.2)
  | update id t img b =>
    have hf2 : imgFresh s img = true := by simpa [opFresh] using hf
    exact putCulto_good s id t img b hg (imgFresh_prop hf2)
  | del id b => exact deleteCulto_good s id b hg

/-- C1: along every sequential history of create, update and delete
operations on culto posts — starting from a table with distinct ids and
deletion handles, with the media host handing out fresh deletion handles and
the DB assigning fresh ids — every Cloudinary destroy call targets a handle
that no committed row references at the moment of the call: the create path
destroys only the handle of an insert that failed, the update path destroys
the old handle only after the row has been re-pointed (or the new handle when
no row was updated), and the delete path destroys the handle only after the
row is gone. -/
theorem c1_no_referenced_handle_destroyed (s : Table) (ops : List Op)
    (hg : good s) (hwf : wfTrace s ops = true) :
    ∀ p ∈ traceEvents s ops, ∀ r ∈ p.2, r.public_id ≠ some p.1 := by
  induction ops generalizing s with
  | nil =>
    intro p hp
    simp [traceEvents] at hp
  | cons o rest ih =>
    intro p hp r hr
    have hwf2 := hwf
    unfold wfTrace at hwf2
    rw [Bool.and_eq_true] at hwf2
    unfold traceEvents at hp
    rw [List.mem_append] at hp
    rcases hp with hp | hp
    · obtain ⟨d, hd, hpd⟩ := List.mem_map.mp hp
      subst hpd
      exact stepSafe s o hg hwf2.1 d hd r hr
    · exact ih (stepOp s o).1 (stepGood s o hg hwf2.1) hwf2.2 p hp r hr

theorem c1_no_referenced_handle_destroyed_witness :
    good [] ∧
    wfTrace [] [Op.create "t" (some ⟨"u1", "p1"⟩) 1 10 false,
      Op.update 1 "" (some ⟨"u2", "p2"⟩) false, Op.del 1 false] = true ∧
    ∀ p ∈ traceEvents [] [Op.create "t" (some ⟨"u1", "p1"⟩) 1 10 false,
      Op.update 1 "" (some ⟨"u2", "p2"⟩) false, Op.del 1 false],
      ∀ r ∈ p.2, r.public_id ≠ some p.1 :=
  ⟨List.Pairwise.nil, by decide,
   c1_no_referenced_handle_destroyed []
     [Op.create "t" (some ⟨"u1", "p1"⟩) 1 10 false,
      Op.update 1 "" (some ⟨"u2", "p2"⟩) false, Op.del 1 false]
     List.Pairwise.nil (by decide)⟩

end ICB
